import Mathlib

/-!
Shallow embedding of `picoW-app/bynav_GNSS.py`: the GPGGA sentence parser
`parse_gpgga` (lines 76–109), the bootstrap wait loop of `gnss_setup`
(lines 27–44), and the steady-state relay loop of `gnss_task`
(lines 119–164).

Modelling conventions:
* MicroPython byte strings and text strings are both modelled as `String`
  (every sentence this program handles is ASCII, and `bytes.decode()` on
  such input is the identity); a decode error on a non-ASCII line is
  subsumed by the parse-failure branches.
* Python string primitives (`split(',')`, `strip()`, `startswith`,
  slicing) are embedded as structurally recursive functions on the
  character list, so every definition evaluates by reduction.
* Python floats are modelled as exact rationals (`ℚ`); `time.ticks_ms()`
  values are modelled as `Int` and `time.ticks_diff(a, b)` as `a - b`.
* A raised exception of a library call is modelled by an `Option` result
  (`none` = the call raised), and the source's `try/except` blocks become
  the corresponding `none` branches.
-/

namespace BynavGNSS

/-- Python `s.split(',')` on a character list: split at every comma,
keeping empty fields (so the result always has one more field than there
are commas). -/
def splitCommaAux : List Char → List Char → List (List Char)
  | [], acc => [acc.reverse]
  | c :: rest, acc =>
    if c = ',' then acc.reverse :: splitCommaAux rest []
    else splitCommaAux rest (c :: acc)

/-- Python `s.split(',')`. -/
def pySplit (s : String) : List String :=
  (splitCommaAux s.toList []).map String.mk

/-- Python `s.strip()` on a character list: drop leading and trailing
whitespace. -/
def stripChars (cs : List Char) : List Char :=
  ((cs.dropWhile Char.isWhitespace).reverse.dropWhile Char.isWhitespace).reverse

/-- Python `s.strip()`. -/
def pyStrip (s : String) : String := String.mk (stripChars s.toList)

/-- Python `s.startswith(pre)`. -/
def pyStartsWith (s pre : String) : Bool :=
  decide (s.toList.take pre.toList.length = pre.toList)

/-- Python slicing `s[:n]` (ASCII). -/
def pyTakeStr (s : String) (n : Nat) : String := String.mk (s.toList.take n)

/-- Python slicing `s[n:]` (ASCII). -/
def pyDropStr (s : String) (n : Nat) : String := String.mk (s.toList.drop n)

/-- Numeric value of an all-digit character list. -/
def natDigitsVal (cs : List Char) : Nat :=
  cs.foldl (fun acc c => 10 * acc + (c.toNat - ('0').toNat)) 0

/-- Numeric value of a nonempty all-digit character list, `none` otherwise. -/
def digitsVal? (cs : List Char) : Option Nat :=
  if cs ≠ [] ∧ cs.all Char.isDigit then some (natDigitsVal cs)
  else none

/-- Python `int(s)` on the decimal strings this program feeds it: optional
surrounding whitespace, an optional sign, then decimal digits; `none`
models a raised `ValueError`. -/
def pyInt? (s : String) : Option Int :=
  match stripChars s.toList with
  | '-' :: cs => (digitsVal? cs).map (fun n => -(n : Int))
  | '+' :: cs => (digitsVal? cs).map (fun n => (n : Int))
  | cs => (digitsVal? cs).map (fun n => (n : Int))

/-- Value of an unsigned plain decimal literal (digits with an optional
`.` and fraction digits, at least one digit in total), `none` otherwise. -/
def decimalVal? (cs : List Char) : Option ℚ :=
  match cs.takeWhile (fun c => c ≠ '.'), cs.dropWhile (fun c => c ≠ '.') with
  | intPart, [] => (digitsVal? intPart).map (fun n => (n : ℚ))
  | intPart, '.' :: fracPart =>
    if (intPart ≠ [] ∨ fracPart ≠ []) ∧
        intPart.all Char.isDigit ∧ fracPart.all Char.isDigit then
      some ((natDigitsVal intPart : ℚ)
        + (natDigitsVal fracPart : ℚ) / ((10 ^ fracPart.length : ℕ) : ℚ))
    else none
  | _, _ => none

/-- Python `float(s)` restricted to the plain decimal forms GPGGA
coordinate fields carry (optional whitespace and sign, digits, optional
fractional part); exponent/`inf`/`nan` spellings are not needed by these
sentences.  `none` models a raised `ValueError`. -/
def pyRat? (s : String) : Option ℚ :=
  match stripChars s.toList with
  | '-' :: cs => (decimalVal? cs).map (fun q => -q)
  | '+' :: cs => decimalVal? cs
  | cs => decimalVal? cs

/-- Result dictionary of `parse_gpgga` (lines 103–107). -/
structure ParsedFix where
  lat : ℚ
  lon : ℚ
  fix_quality : Int
deriving DecidableEq, Repr

/-- Degrees-plus-minutes decoding shared by the two coordinates of
`parse_gpgga`: `int` of the first `nDeg` characters plus `float` of the
remaining characters divided by 60 (lines 91–93 for latitude with
`nDeg = 2`, lines 97–99 for longitude with `nDeg = 3`); `none` models a
raised `ValueError`. -/
def decodeCoord (raw : String) (nDeg : Nat) : Option ℚ :=
  match pyInt? (pyTakeStr raw nDeg), pyRat? (pyDropStr raw nDeg) with
  | some d, some m => some ((d : ℚ) + m / 60)
  | _, _ => none

/-- Body of `parse_gpgga` after `sentence.split(',')` (lines 77–109).
Index 6 out of range and `int`/`float` value errors are the `none`
branches that the source's `except (ValueError, IndexError)` turns into
`None`; note the explicit `fix_quality < 4` gate at line 82 and the
empty-coordinate gate at line 88. -/
def parse_gpggaFields (parts : List String) : Option ParsedFix :=
  if parts.getD 0 "" ≠ "$GPGGA" then none
  else if parts.length < 7 then none
  else
    match pyInt? (parts.getD 6 "") with
    | none => none
    | some fq =>
      if fq < 4 then none
      else if parts.getD 2 "" = "" ∨ parts.getD 4 "" = "" then none
      else
        match decodeCoord (parts.getD 2 "") 2 with
        | none => none
        | some lat0 =>
          match decodeCoord (parts.getD 4 "") 3 with
          | none => none
          | some lon0 =>
            some { lat := if parts.getD 3 "" = "S" then -lat0 else lat0,
                   lon := if parts.getD 5 "" = "W" then -lon0 else lon0,
                   fix_quality := fq }

/-- The sentence parser `parse_gpgga` (lines 76–109). -/
def parse_gpgga (sentence : String) : Option ParsedFix :=
  parse_gpggaFields (pySplit sentence)

/-- Per-line acceptance check of the bootstrap wait loop in `gnss_setup`
(lines 30–43): tag check on the raw line, then `decode().strip()`, split
on commas, and compare field 6 with the string `"0"` and fields 2/4 with
the empty string.  Any exception (the index error on sentences with fewer
than 7 fields) is swallowed by `except Exception: pass`, rejecting the
line.  Note the quality field is compared as a raw string, never parsed
as an integer. -/
def bootstrap_accepts (line : String) : Bool :=
  if pyStartsWith line "$GPGGA" then
    if (pySplit (pyStrip line)).length < 7 then false
    else decide ((pySplit (pyStrip line)).getD 6 "" ≠ "0" ∧
      (pySplit (pyStrip line)).getD 2 "" ≠ "" ∧
      (pySplit (pyStrip line)).getD 4 "" ≠ "")
  else false

/-- Input of one iteration of the bootstrap wait loop: either
`rtk_uart.any()` is falsy, or `rtk_uart.readline()` yields a line. -/
inductive SetupPoll where
  | noData
  | line (s : String)
deriving DecidableEq, Repr

/-- The bootstrap wait loop of `gnss_setup` (lines 27–44) run over a
finite trace of poll iterations (one iteration per 0.5 s sleep): returns
the stripped accepted sentence, or `none` when the whole observed trace
is consumed with the loop still polling.  The source loop is
`while True:` with a single `break` on acceptance; it checks no deadline
and has no timed exit. -/
def gnss_wait : List SetupPoll → Option String
  | [] => none
  | SetupPoll.noData :: rest => gnss_wait rest
  | SetupPoll.line s :: rest =>
    if bootstrap_accepts s then some (pyStrip s) else gnss_wait rest

/-- Outcome of the socket poll-and-read at the top of one relay-loop
iteration (lines 120–134): an `OSError` raised by `sock.recv(512)`, or
the received bytes (an empty payload is the zero-byte read of a closed
peer). -/
inductive SockRead where
  | err
  | data (payload : String)
deriving DecidableEq, Repr

/-- Record enqueued to `gnss_queue` (lines 153–158): device identifier,
`time.time()` timestamp, and the parsed coordinates. -/
structure GnssData where
  pico_id : String
  date : Int
  lat : ℚ
  lon : ℚ
deriving DecidableEq, Repr

/-- Observable network/serial/sink actions of one relay-loop iteration. -/
inductive Action where
  | uartWrite (payload : String)
  | sockSend (line : String) (sentAt : Int)
  | sendFail (line : String)
  | sinkPush (g : GnssData)
deriving DecidableEq, Repr

/-- Environment of one relay-loop iteration.  `stop` is the external stop
signal the specification describes; the source body never reads any such
flag.  `sockEvent` is the poll outcome (`none` = no `POLLIN` event),
`uartLine` the line available on `rtk_uart` (if any), `now` the value
`time.ticks_ms()` would return, `epoch` the value `time.time()` would
return, and `sendOk` whether `sock.send` would succeed this iteration. -/
structure TickInput where
  stop : Bool
  sockEvent : Option SockRead
  uartLine : Option String
  now : Int
  epoch : Int
  sendOk : Bool
deriving DecidableEq, Repr

/-- Reasons the relay loop returns (the two `return` statements at
lines 131 and 134). -/
inductive TermReason where
  | peerClosed
  | socketError
deriving DecidableEq, Repr

/-- Result of one relay-loop iteration: terminate with a reason, or carry
the throttle clock `last_gga_ms` to the next iteration. -/
inductive TickResult where
  | halt (reason : TermReason) (acts : List Action)
  | next (lastGga : Int) (acts : List Action)
deriving DecidableEq, Repr

/-- Parse-and-enqueue block of the relay loop (lines 148–163): the sink
receives one record when `parse_gpgga` succeeds on the line, none
otherwise (a parse failure is logged and ignored). -/
def pushActs (pid : String) (epoch : Int) (line : String) : List Action :=
  match parse_gpgga line with
  | some fix => [Action.sinkPush ⟨pid, epoch, fix.lat, fix.lon⟩]
  | none => []

/-- Serial-side half of one relay-loop iteration (lines 137–163): if a
line is available and starts with the GPGGA tag, send it to the socket
when more than 1000 ms have elapsed since `last_gga_ms` — resetting the
clock only when `sock.send` succeeds (lines 143–144); a raised send is
logged and execution continues (lines 145–146) — and, independently of
the throttle, run the parse-and-enqueue block. -/
def serialStep (pid : String) (last : Int) (inp : TickInput) : Int × List Action :=
  match inp.uartLine with
  | none => (last, [])
  | some line =>
    if pyStartsWith line "$GPGGA" then
      if 1000 < inp.now - last then
        if inp.sendOk then
          (inp.now, Action.sockSend line inp.now :: pushActs pid inp.epoch line)
        else
          (last, Action.sendFail line :: pushActs pid inp.epoch line)
      else
        (last, pushActs pid inp.epoch line)
    else (last, [])

/-- One iteration of the relay loop of `gnss_task` (lines 119–164): the
socket poll-and-read first (an `OSError` returns, a zero-byte read
returns, nonempty bytes are written to the UART), then the serial-side
half, then the 50 ms yielding sleep (time passing is carried by the
`now` field of the next iteration's input). -/
def gnss_tick (pid : String) (last : Int) (inp : TickInput) : TickResult :=
  match inp.sockEvent with
  | some SockRead.err => TickResult.halt TermReason.socketError []
  | some (SockRead.data payload) =>
    if payload = "" then TickResult.halt TermReason.peerClosed []
    else TickResult.next (serialStep pid last inp).1
      (Action.uartWrite payload :: (serialStep pid last inp).2)
  | none => TickResult.next (serialStep pid last inp).1 (serialStep pid last inp).2

/-- Outcome of running the relay loop over a finite trace of iteration
inputs: the termination reason (`none` when the trace ends with the loop
still running), the concatenated action trace, and the final throttle
clock. -/
structure RunResult where
  term : Option TermReason
  acts : List Action
  lastGga : Int
deriving DecidableEq, Repr

/-- The relay loop of `gnss_task` (`while True:` at line 119) run over a
finite trace of iteration inputs.  Once an iteration halts, the remaining
inputs are not processed: no further network or serial operation occurs. -/
def gnss_run (pid : String) (last : Int) : List TickInput → RunResult
  | [] => ⟨none, [], last⟩
  | inp :: rest =>
    match gnss_tick pid last inp with
    | TickResult.halt r acts => ⟨some r, acts, last⟩
    | TickResult.next last2 acts =>
      ⟨(gnss_run pid last2 rest).term,
       acts ++ (gnss_run pid last2 rest).acts,
       (gnss_run pid last2 rest).lastGga⟩

/-- Timestamps of the successful GGA report sends in an action trace. -/
def sendTimes : List Action → List Int
  | [] => []
  | Action.sockSend _ t :: rest => t :: sendTimes rest
  | _ :: rest => sendTimes rest

/-- Number of records pushed to the sink in an action trace. -/
def countPush (acts : List Action) : Nat :=
  acts.countP fun a => match a with
    | Action.sinkPush _ => true
    | _ => false

/-- Throttle-gap property: starting from a last-send timestamp `prev`,
each successive send time is more than 1000 ms after the previous one. -/
def gapsOK : Int → List Int → Prop
  | _, [] => True
  | prev, t :: ts => 1000 < t - prev ∧ gapsOK t ts

/-- A steady-state-qualifying iteration input: a line is available, it
starts with the GPGGA tag, and `parse_gpgga` succeeds on it (which
entails fix quality ≥ 4). -/
def steadyQualifying (inp : TickInput) : Bool :=
  match inp.uartLine with
  | none => false
  | some line => pyStartsWith line "$GPGGA" && (parse_gpgga line).isSome

/-- The quality-4 example sentence of the specification. -/
def exGGA4 : String := "$GPGGA,123519,4807.038,N,01131.000,E,4,08,0.9,545.4,M,46.9,M,,"

/-- Parse result of `exGGA4`: 48 + 7.038/60 = 48.1173 exactly, and
11 + 31/60 = 691/60 ≈ 11.5167. -/
def exFix4 : ParsedFix := ⟨481173/10000, 691/60, 4⟩

/-- A sentence identical to `exGGA4` except its fix-quality field is 1. -/
def lowQualSentence : String := "$GPGGA,123519,4807.038,N,01131.000,E,1,08,0.9,545.4,M,46.9,M,,"

/-- A well-formed GGA sentence with quality field "0" and empty
coordinate fields (no fix yet). -/
def noFixLine : String := "$GPGGA,123519,,,,,0,00,,,M,,M,,"

/-- A 201-iteration trace in which every read line is `noFixLine`: at one
iteration per 0.5 s sleep this covers more than 100 s of polling. -/
def noFixTrace : List SetupPoll := List.replicate 201 (SetupPoll.line noFixLine)

/-- A sentence whose quality field is the non-numeric string "A". -/
def bootA : String := "$GPGGA,123519,4807.038,N,01131.000,E,A,08,0.9,545.4,M,46.9,M,,"

/-- A sentence whose quality field is the two-character string "00". -/
def boot00 : String := "$GPGGA,123519,4807.038,N,01131.000,E,00,08,0.9,545.4,M,46.9,M,,"

/-- A sentence with only two comma-separated fields. -/
def shortSentence : String := "$GPGGA,123519"

/-- Relay-loop input with the stop signal set and nothing else happening. -/
def stopTick : TickInput := ⟨true, none, none, 0, 0, true⟩

/-- Relay-loop input whose socket read raises `OSError`. -/
def errTick : TickInput := ⟨false, some SockRead.err, none, 0, 0, true⟩

/-- Relay-loop input whose socket poll reports readable and whose read
returns zero bytes. -/
def peerTick : TickInput := ⟨false, some (SockRead.data ""), none, 0, 0, true⟩

/-- Relay-loop input for claim C9: a quality-4 line is available, the
throttle window is open, and `sock.send` raises. -/
def sendFailTick : TickInput := ⟨false, none, some exGGA4, 2000, 5, false⟩

/-- Relay-loop input for claim C9's socket-error half. -/
def errTick9 : TickInput := ⟨false, some SockRead.err, none, 0, 0, true⟩

/-- Relay-loop input for claim C5: a quality-4 line is available but the
throttle window is closed (`now = 0`, `last = 0`). -/
def qualTick : TickInput := ⟨false, none, some exGGA4, 0, 7, true⟩

/-! Characterization of successful parses, shared by the parser claims. -/

/-- A successful `parse_gpggaFields` pins down every field the source
inspects: the tag, at least 7 fields, the integer-parsed quality carried
into the result and at least 4, nonempty coordinate fields, and the two
degrees-plus-minutes decodings (stated with the hemisphere sign folded
in: the decoded magnitude equals the fix coordinate, negated back when
the hemisphere letter is `S`/`W`). -/
theorem parse_fields_some (parts : List String) (fix : ParsedFix)
    (h : parse_gpggaFields parts = some fix) :
    parts.getD 0 "" = "$GPGGA" ∧
    7 ≤ parts.length ∧
    pyInt? (parts.getD 6 "") = some fix.fix_quality ∧
    4 ≤ fix.fix_quality ∧
    parts.getD 2 "" ≠ "" ∧
    parts.getD 4 "" ≠ "" ∧
    decodeCoord (parts.getD 2 "") 2
      = some (if parts.getD 3 "" = "S" then -fix.lat else fix.lat) ∧
    decodeCoord (parts.getD 4 "") 3
      = some (if parts.getD 5 "" = "W" then -fix.lon else fix.lon) := by
  unfold parse_gpggaFields at h
  split at h
  · simp at h
  next htag =>
    split at h
    · simp at h
    next hlen =>
      split at h
      · simp at h
      next fq hq =>
        split at h
        · simp at h
        next hfq =>
          split at h
          · simp at h
          next hne =>
            split at h
            · simp at h
            next lat0 hlat =>
              split at h
              · simp at h
              next lon0 hlon =>
                simp only [Option.some.injEq] at h
                subst h
                push_neg at htag hne
                refine ⟨htag, by omega, hq, (by omega : (4 : ℤ) ≤ fq),
                  hne.1, hne.2, ?_, ?_⟩
                · by_cases hdir : parts.getD 3 "" = "S"
                  · simp only [if_pos hdir, neg_neg]
                    exact hlat
                  · simp only [if_neg hdir]
                    exact hlat
                · by_cases hdir : parts.getD 5 "" = "W"
                  · simp only [if_pos hdir, neg_neg]
                    exact hlon
                  · simp only [if_neg hdir]
                    exact hlon

/-- Concrete evaluation shared by several claims: the specification's
example sentence parses to latitude 48.1173 = 481173/10000 and longitude
691/60. -/
theorem parse_exGGA4 : parse_gpgga exGGA4 = some exFix4 := by
  have h : parse_gpgga exGGA4
      = some ⟨(48 : ℚ) + ((7 : ℚ) + (38 : ℚ)/(1000 : ℚ))/60,
              (11 : ℚ) + ((31 : ℚ) + (0 : ℚ)/(1000 : ℚ))/60, 4⟩ := rfl
  rw [h, exFix4]
  norm_num

/-- C1: the claim states that `parse_gpgga` enforces no fix-quality gate
and returns a fix carrying the sentence's quality whatever its value.
The code does the opposite at line 82: it returns `None` whenever the
parsed quality is below 4.  Amended statement proved here: a successful
parse carries the sentence's integer-parsed quality and that quality is
always at least 4; conversely a sentence whose quality field parses to
an integer below 4 yields `None`.  (The bootstrap gate `quality != '0'`
is applied by `gnss_setup` directly on the raw split fields, lines
34–35, without calling the parser, so only the steady-state gate lives
in the parser.) -/
theorem claimC1 :
    (∀ (s : String) (fix : ParsedFix), parse_gpgga s = some fix →
      pyInt? ((pySplit s).getD 6 "") = some fix.fix_quality ∧
        4 ≤ fix.fix_quality) ∧
    (∀ (s : String) (q : Int), pyInt? ((pySplit s).getD 6 "") = some q →
      q < 4 → parse_gpgga s = none) := by
  constructor
  · intro s fix h
    have spec := parse_fields_some (pySplit s) fix h
    exact ⟨spec.2.2.1, spec.2.2.2.1⟩
  · intro s q hq hlt
    cases hp : parse_gpgga s with
    | none => rfl
    | some fix =>
      have spec := parse_fields_some (pySplit s) fix hp
      rw [spec.2.2.1] at hq
      simp only [Option.some.injEq] at hq
      omega

/-- C1 counterexample: `lowQualSentence` satisfies every success
condition the claim lists (correct tag, at least 7 fields, numeric
quality, nonempty coordinate fields) yet its quality is 1, and
`parse_gpgga` returns `None` instead of a fix carrying quality 1. -/
theorem claimC1_cex :
    parse_gpgga lowQualSentence = none ∧
    (pySplit lowQualSentence).getD 0 "" = "$GPGGA" ∧
    7 ≤ (pySplit lowQualSentence).length ∧
    pyInt? ((pySplit lowQualSentence).getD 6 "") = some 1 ∧
    (pySplit lowQualSentence).getD 2 "" ≠ "" ∧
    (pySplit lowQualSentence).getD 4 "" ≠ "" := by decide

/-- C1 witness: the amended theorem evaluated on the quality-4 example
sentence and on the quality-1 sentence. -/
theorem claimC1_w :
    (pyInt? ((pySplit exGGA4).getD 6 "") = some exFix4.fix_quality ∧
      4 ≤ exFix4.fix_quality) ∧
    parse_gpgga lowQualSentence = none :=
  ⟨claimC1.1 exGGA4 exFix4 parse_exGGA4,
   claimC1.2 lowQualSentence 1 (by decide) (by decide)⟩

/-- C6: every malformed sentence — wrong leading tag, fewer than 7
comma-separated fields, non-numeric fix-quality field, or an empty
latitude/longitude field — makes `parse_gpgga` return `None`.  The
"never raises" half of the claim is carried by the embedding itself:
`parse_gpgga` is a total function whose `none` branches are exactly the
exceptions the source catches at line 108. -/
theorem claimC6 (s : String)
    (h : (pySplit s).getD 0 "" ≠ "$GPGGA" ∨
      (pySplit s).length < 7 ∨
      pyInt? ((pySplit s).getD 6 "") = none ∨
      (pySplit s).getD 2 "" = "" ∨
      (pySplit s).getD 4 "" = "") :
    parse_gpgga s = none := by
  cases hp : parse_gpgga s with
  | none => rfl
  | some fix =>
    have spec := parse_fields_some (pySplit s) fix hp
    rcases h with h | h | h | h | h
    · exact absurd spec.1 h
    · omega
    · rw [spec.2.2.1] at h; simp at h
    · exact absurd h spec.2.2.2.2.1
    · exact absurd h spec.2.2.2.2.2.1

/-- C6 witness: the theorem evaluated on a sentence with only two
fields. -/
theorem claimC6_w : parse_gpgga shortSentence = none :=
  claimC6 shortSentence (Or.inr (Or.inl (by decide)))

/-- C7: every accepted sentence's coordinates follow the
degrees-plus-minutes formula — `decodeCoord raw n` is by definition
`int` of the first `n` characters plus `float` of the rest divided by
60, with `n = 2` for latitude and `n = 3` for longitude — negated
exactly when the hemisphere letter is `S` (resp. `W`); and the
specification's example sentence yields fix quality 4, latitude exactly
48.1173 and longitude 691/60, within 1/1000 of 11.5167. -/
theorem claimC7 :
    (∀ (s : String) (fix : ParsedFix), parse_gpgga s = some fix →
      (decodeCoord ((pySplit s).getD 2 "") 2).isSome = true ∧
      (decodeCoord ((pySplit s).getD 4 "") 3).isSome = true ∧
      fix.lat = (if (pySplit s).getD 3 "" = "S"
        then -((decodeCoord ((pySplit s).getD 2 "") 2).getD 0)
        else (decodeCoord ((pySplit s).getD 2 "") 2).getD 0) ∧
      fix.lon = (if (pySplit s).getD 5 "" = "W"
        then -((decodeCoord ((pySplit s).getD 4 "") 3).getD 0)
        else (decodeCoord ((pySplit s).getD 4 "") 3).getD 0)) ∧
    (parse_gpgga exGGA4 = some exFix4 ∧
      exFix4.fix_quality = 4 ∧
      exFix4.lat = 48.1173 ∧
      11.5167 - 1/1000 < exFix4.lon ∧ exFix4.lon < 11.5167 + 1/1000) := by
  constructor
  · intro s fix h
    have spec := parse_fields_some (pySplit s) fix h
    obtain ⟨-, -, -, -, -, -, hlat, hlon⟩ := spec
    refine ⟨by rw [hlat]; rfl, by rw [hlon]; rfl, ?_, ?_⟩
    · rw [hlat]
      by_cases hdir : (pySplit s).getD 3 "" = "S"
      · simp only [if_pos hdir, Option.getD_some, neg_neg]
      · simp only [if_neg hdir, Option.getD_some]
    · rw [hlon]
      by_cases hdir : (pySplit s).getD 5 "" = "W"
      · simp only [if_pos hdir, Option.getD_some, neg_neg]
      · simp only [if_neg hdir, Option.getD_some]
  · refine ⟨parse_exGGA4, rfl, by rw [exFix4]; norm_num,
      by rw [exFix4]; norm_num, by rw [exFix4]; norm_num⟩

/-- C7 witness: the general half of the theorem evaluated on the example
sentence. -/
theorem claimC7_w :
    (decodeCoord ((pySplit exGGA4).getD 2 "") 2).isSome = true ∧
    (decodeCoord ((pySplit exGGA4).getD 4 "") 3).isSome = true ∧
    exFix4.lat = (if (pySplit exGGA4).getD 3 "" = "S"
      then -((decodeCoord ((pySplit exGGA4).getD 2 "") 2).getD 0)
      else (decodeCoord ((pySplit exGGA4).getD 2 "") 2).getD 0) ∧
    exFix4.lon = (if (pySplit exGGA4).getD 5 "" = "W"
      then -((decodeCoord ((pySplit exGGA4).getD 4 "") 3).getD 0)
      else (decodeCoord ((pySplit exGGA4).getD 4 "") 3).getD 0) :=
  claimC7.1 exGGA4 exFix4 parse_exGGA4

/-- C10: the bootstrap gate of `gnss_setup` is a raw string comparison of
field 6 against `"0"` (line 35), never an integer parse.  General half:
for any tagged line with at least 7 stripped fields, acceptance is
exactly the three string conditions.  Concrete halves: a sentence whose
quality field is the non-numeric string `"A"` (which `int()` would
reject) is accepted, and a sentence whose quality field is `"00"` (which
`int()` would parse as 0) is also accepted, because `"00" != "0"` as
strings. -/
theorem claimC10 :
    (∀ line : String, pyStartsWith line "$GPGGA" = true →
      7 ≤ (pySplit (pyStrip line)).length →
      (bootstrap_accepts line = true ↔
        ((pySplit (pyStrip line)).getD 6 "" ≠ "0" ∧
         (pySplit (pyStrip line)).getD 2 "" ≠ "" ∧
         (pySplit (pyStrip line)).getD 4 "" ≠ ""))) ∧
    bootstrap_accepts bootA = true ∧
    pyInt? ((pySplit (pyStrip bootA)).getD 6 "") = none ∧
    bootstrap_accepts boot00 = true ∧
    pyInt? ((pySplit (pyStrip boot00)).getD 6 "") = some 0 ∧
    (pySplit (pyStrip boot00)).getD 6 "" = "00" := by
  refine ⟨?_, by decide, by decide, by decide, by decide, by decide⟩
  intro line h1 h2
  unfold bootstrap_accepts
  simp only [h1, if_true]
  rw [if_neg (by omega : ¬ (pySplit (pyStrip line)).length < 7)]
  simp only [decide_eq_true_eq]

/-- C10 witness: the general half of the theorem evaluated on the
sentence whose quality field is `"A"`. -/
theorem claimC10_w :
    bootstrap_accepts bootA = true ↔
      ((pySplit (pyStrip bootA)).getD 6 "" ≠ "0" ∧
       (pySplit (pyStrip bootA)).getD 2 "" ≠ "" ∧
       (pySplit (pyStrip bootA)).getD 4 "" ≠ "") :=
  claimC10.1 bootA (by decide) (by decide)

/-- Helper for the C3 counterexample: the bootstrap wait loop makes no
progress over any number of iterations that read only one fixed rejected
line. -/
theorem gnss_wait_replicate (n : Nat) (s : String)
    (h : bootstrap_accepts s = false) :
    gnss_wait (List.replicate n (SetupPoll.line s)) = none := by
  induction n with
  | zero => rfl
  | succ n ih => simp [List.replicate_succ, gnss_wait, h, ih]

/-- C3: the claim states the bootstrap fix-acquisition returns TimedOut
once the timeout elapses when no qualifying sentence ever arrives.  The
wait loop of `gnss_setup` (lines 27–44) has no deadline at all: its only
exit is the `break` on an accepted sentence.  Amended statement proved
here: over any trace in which no read line passes the bootstrap gate,
the loop is still polling after the whole trace — it never returns,
timed out or otherwise, without a qualifying sentence. -/
theorem claimC3 (trace : List SetupPoll)
    (h : ∀ s : String, SetupPoll.line s ∈ trace → bootstrap_accepts s = false) :
    gnss_wait trace = none := by
  induction trace with
  | nil => rfl
  | cons p rest ih =>
    cases p with
    | noData =>
      exact ih (fun s hs => h s (List.mem_cons_of_mem _ hs))
    | line s =>
      have hs := h s (List.mem_cons_self _ _)
      simp only [gnss_wait, hs, if_false]
      exact ih (fun s2 hs2 => h s2 (List.mem_cons_of_mem _ hs2))

/-- C3 counterexample: a concrete 201-iteration run (one iteration per
0.5 s sleep, hence more than 100 s — past any 90 s deadline) in which
every read line has quality field `"0"`: the loop is still polling, and
no TimedOut-style return has occurred or ever occurs. -/
theorem claimC3_cex : gnss_wait noFixTrace = none :=
  gnss_wait_replicate 201 noFixLine (by decide)

/-- C3 witness: the amended theorem evaluated on a short concrete trace
with one idle iteration and one rejected line. -/
theorem claimC3_w :
    gnss_wait [SetupPoll.noData, SetupPoll.line noFixLine] = none := by
  refine claimC3 [SetupPoll.noData, SetupPoll.line noFixLine] ?_
  intro s hs
  simp only [List.mem_cons, List.not_mem_nil, or_false] at hs
  rcases hs with hs | hs
  · exact absurd hs (by simp)
  · rw [(by injection hs : s = noFixLine)]
    decide

/-! Relay-loop bookkeeping lemmas shared by the `gnss_task` claims. -/

theorem sendTimes_append (a b : List Action) :
    sendTimes (a ++ b) = sendTimes a ++ sendTimes b := by
  induction a with
  | nil => rfl
  | cons x xs ih => cases x <;> simp [sendTimes, ih]

theorem sendTimes_pushActs (pid : String) (e : Int) (line : String) :
    sendTimes (pushActs pid e line) = [] := by
  unfold pushActs
  cases parse_gpgga line <;> rfl

theorem countPush_cons_uartWrite (p : String) (acts : List Action) :
    countPush (Action.uartWrite p :: acts) = countPush acts := by
  simp [countPush, List.countP_cons]

theorem countPush_cons_sockSend (l : String) (t : Int) (acts : List Action) :
    countPush (Action.sockSend l t :: acts) = countPush acts := by
  simp [countPush, List.countP_cons]

theorem countPush_cons_sendFail (l : String) (acts : List Action) :
    countPush (Action.sendFail l :: acts) = countPush acts := by
  simp [countPush, List.countP_cons]

theorem countPush_pushActs (pid : String) (e : Int) (line : String) :
    countPush (pushActs pid e line)
      = if (parse_gpgga line).isSome then 1 else 0 := by
  unfold pushActs
  cases parse_gpgga line <;> simp [countPush]

theorem pushActs_mem (pid : String) (e : Int) (line : String) (g : GnssData)
    (h : Action.sinkPush g ∈ pushActs pid e line) :
    ∃ fix, parse_gpgga line = some fix ∧ g = ⟨pid, e, fix.lat, fix.lon⟩ := by
  unfold pushActs at h
  cases hp : parse_gpgga line with
  | none => rw [hp] at h; simp at h
  | some fix =>
    rw [hp] at h
    simp only [List.mem_singleton, Action.sinkPush.injEq] at h
    exact ⟨fix, rfl, h⟩

/-- Send behavior of the serial-side half: either nothing is sent and the
throttle clock is unchanged, or exactly one report is sent at `inp.now`,
the clock becomes `inp.now`, and more than 1000 ms had elapsed. -/
theorem serialStep_sendSpec (pid : String) (last : Int) (inp : TickInput) :
    ((serialStep pid last inp).1 = last ∧
      sendTimes (serialStep pid last inp).2 = []) ∨
    ((serialStep pid last inp).1 = inp.now ∧
      sendTimes (serialStep pid last inp).2 = [inp.now] ∧
      1000 < inp.now - last) := by
  cases hul : inp.uartLine with
  | none => exact Or.inl ⟨by simp [serialStep, hul], by simp [serialStep, hul, sendTimes]⟩
  | some line =>
    simp only [serialStep, hul]
    by_cases hsw : pyStartsWith line "$GPGGA" = true
    · rw [if_pos hsw]
      by_cases hthr : 1000 < inp.now - last
      · rw [if_pos hthr]
        by_cases hok : inp.sendOk = true
        · rw [if_pos hok]
          refine Or.inr ⟨rfl, ?_, hthr⟩
          show inp.now :: sendTimes (pushActs pid inp.epoch line) = [inp.now]
          rw [sendTimes_pushActs]
        · rw [if_neg hok]
          refine Or.inl ⟨rfl, ?_⟩
          show sendTimes (pushActs pid inp.epoch line) = []
          exact sendTimes_pushActs pid inp.epoch line
      · rw [if_neg hthr]
        exact Or.inl ⟨rfl, sendTimes_pushActs pid inp.epoch line⟩
    · rw [if_neg hsw]
      exact Or.inl ⟨rfl, rfl⟩

/-- Sink behavior of the serial-side half: exactly one push when the
input is steady-state qualifying, zero otherwise — whatever the throttle
state `last` and send outcome were. -/
theorem serialStep_countSpec (pid : String) (last : Int) (inp : TickInput) :
    countPush (serialStep pid last inp).2
      = if steadyQualifying inp then 1 else 0 := by
  cases hul : inp.uartLine with
  | none => simp [serialStep, hul, steadyQualifying, countPush]
  | some line =>
    simp only [serialStep, steadyQualifying, hul]
    by_cases hsw : pyStartsWith line "$GPGGA" = true
    · rw [if_pos hsw]
      simp only [hsw, Bool.true_and]
      by_cases hthr : 1000 < inp.now - last
      · rw [if_pos hthr]
        by_cases hok : inp.sendOk = true
        · rw [if_pos hok, countPush_cons_sockSend, countPush_pushActs]
        · rw [if_neg hok, countPush_cons_sendFail, countPush_pushActs]
      · rw [if_neg hthr, countPush_pushActs]
    · rw [if_neg hsw]
      simp only [Bool.not_eq_true] at hsw
      simp [hsw, countPush]

/-- Every record the serial-side half pushes comes from a successful
parse of the available line, carrying the device identifier and the
`time.time()` timestamp. -/
theorem serialStep_pushMem (pid : String) (last : Int) (inp : TickInput)
    (g : GnssData) (h : Action.sinkPush g ∈ (serialStep pid last inp).2) :
    ∃ line fix, inp.uartLine = some line ∧ parse_gpgga line = some fix ∧
      g = ⟨pid, inp.epoch, fix.lat, fix.lon⟩ := by
  cases hul : inp.uartLine with
  | none => rw [serialStep, hul] at h; simp at h
  | some line =>
    simp only [serialStep, hul] at h
    refine ⟨line, ?_⟩
    by_cases hsw : pyStartsWith line "$GPGGA" = true
    · rw [if_pos hsw] at h
      by_cases hthr : 1000 < inp.now - last
      · rw [if_pos hthr] at h
        by_cases hok : inp.sendOk = true
        · rw [if_pos hok] at h
          simp only [List.mem_cons] at h
          rcases h with h | h
          · exact absurd h (by simp)
          · obtain ⟨fix, h1, h2⟩ := pushActs_mem pid inp.epoch line g h
            exact ⟨fix, rfl, h1, h2⟩
        · rw [if_neg hok] at h
          simp only [List.mem_cons] at h
          rcases h with h | h
          · exact absurd h (by simp)
          · obtain ⟨fix, h1, h2⟩ := pushActs_mem pid inp.epoch line g h
            exact ⟨fix, rfl, h1, h2⟩
      · rw [if_neg hthr] at h
        obtain ⟨fix, h1, h2⟩ := pushActs_mem pid inp.epoch line g h
        exact ⟨fix, rfl, h1, h2⟩
    · rw [if_neg hsw] at h
      simp at h

/-- A halting relay-loop iteration performs no action at all. -/
theorem gnss_tick_halt_acts (pid : String) (last : Int) (inp : TickInput)
    (r : TermReason) (acts : List Action)
    (h : gnss_tick pid last inp = TickResult.halt r acts) : acts = [] := by
  cases hse : inp.sockEvent with
  | none => simp [gnss_tick, hse] at h
  | some sr =>
    cases sr with
    | err =>
      simp only [gnss_tick, hse, TickResult.halt.injEq] at h
      exact h.2.symm
    | data p =>
      simp only [gnss_tick, hse] at h
      by_cases hp : p = ""
      · rw [if_pos hp] at h
        simp only [TickResult.halt.injEq] at h
        exact h.2.symm
      · rw [if_neg hp] at h
        simp at h

/-- A continuing relay-loop iteration carries the serial-side half's
clock, and its action list adds at most a `uartWrite` in front of the
serial-side actions. -/
theorem gnss_tick_next_spec (pid : String) (last : Int) (inp : TickInput)
    (last2 : Int) (acts : List Action)
    (h : gnss_tick pid last inp = TickResult.next last2 acts) :
    last2 = (serialStep pid last inp).1 ∧
    sendTimes acts = sendTimes (serialStep pid last inp).2 ∧
    countPush acts = countPush (serialStep pid last inp).2 ∧
    (∀ g, Action.sinkPush g ∈ acts →
      Action.sinkPush g ∈ (serialStep pid last inp).2) := by
  cases hse : inp.sockEvent with
  | none =>
    simp only [gnss_tick, hse, TickResult.next.injEq] at h
    obtain ⟨h1, h2⟩ := h
    subst h2
    exact ⟨h1.symm, rfl, rfl, fun g hg => hg⟩
  | some sr =>
    cases sr with
    | err => simp [gnss_tick, hse] at h
    | data p =>
      simp only [gnss_tick, hse] at h
      by_cases hp : p = ""
      · rw [if_pos hp] at h; simp at h
      · rw [if_neg hp] at h
        simp only [TickResult.next.injEq] at h
        obtain ⟨h1, h2⟩ := h
        subst h2
        refine ⟨h1.symm, rfl, countPush_cons_uartWrite _ _, ?_⟩
        intro g hg
        simp only [List.mem_cons] at hg
        rcases hg with hg | hg
        · exact absurd hg (by simp)
        · exact hg

/-- Across any run of the relay loop, successive report-send timestamps
are each more than 1000 ms after the previous one (and after the initial
throttle-clock value). -/
theorem run_gapsOK (inputs : List TickInput) :
    ∀ (pid : String) (last : Int),
      gapsOK last (sendTimes (gnss_run pid last inputs).acts) := by
  induction inputs with
  | nil => intro pid last; exact trivial
  | cons inp rest ih =>
    intro pid last
    cases ht : gnss_tick pid last inp with
    | halt r acts =>
      have hacts := gnss_tick_halt_acts pid last inp r acts ht
      subst hacts
      simp only [gnss_run, ht]
      exact trivial
    | next last2 acts =>
      obtain ⟨h1, h2, -, -⟩ := gnss_tick_next_spec pid last inp last2 acts ht
      simp only [gnss_run, ht]
      rw [sendTimes_append, h2]
      rcases serialStep_sendSpec pid last inp with ⟨e1, e2⟩ | ⟨e1, e2, e3⟩
      · rw [e2, List.nil_append]
        have h1' : last2 = last := by rw [h1, e1]
        rw [h1']
        exact ih pid last
      · rw [e2, List.singleton_append]
        refine ⟨by omega, ?_⟩
        have h1' : last2 = inp.now := by rw [h1, e1]
        rw [h1']
        exact ih pid inp.now

theorem gapsOK_forall (prev : Int) (ts : List Int) (h : gapsOK prev ts) :
    ∀ t ∈ ts, 1000 < t - prev := by
  induction ts generalizing prev with
  | nil => intro t ht; simp at ht
  | cons t ts ih =>
    obtain ⟨h1, h2⟩ := h
    intro x hx
    rcases List.mem_cons.mp hx with rfl | hx
    · exact h1
    · have := ih t h2 x hx
      omega

theorem gapsOK_pairwise (prev : Int) (ts : List Int) (h : gapsOK prev ts) :
    List.Pairwise (fun a b => 1000 < b - a) ts := by
  induction ts generalizing prev with
  | nil => exact List.Pairwise.nil
  | cons t ts ih =>
    obtain ⟨h1, h2⟩ := h
    exact List.Pairwise.cons (gapsOK_forall t ts h2) (ih t h2)

/-- C4: over any run of the relay loop, no two successful GGA report
sends are less than 1000 ms apart (the code's `ticks_diff(now,
last_gga_ms) > 1000` gate at line 141, with `last_gga_ms` reset only on a
successful send at line 144).  The throttle clock is a local variable of
`gnss_task`, mutated nowhere else — in the embedding it is the loop
state threaded through `gnss_run`. -/
theorem claimC4 (pid : String) (last0 : Int) (inputs : List TickInput) :
    List.Pairwise (fun a b => ¬ b - a < 1000)
      (sendTimes (gnss_run pid last0 inputs).acts) :=
  (gapsOK_pairwise last0 _ (run_gapsOK inputs pid last0)).imp (fun h => by omega)

/-- C5: in every relay-loop iteration that does not halt, the sink
receives exactly one record when a steady-state-qualifying sentence
(GPGGA tag, successful parse — hence quality ≥ 4) is available, and zero
records otherwise; the count `if steadyQualifying inp then 1 else 0`
depends only on the available line, not on the throttle clock or the
send outcome, so the push is independent of whether the throttled report
send occurred.  Every pushed record carries the device identifier, the
`time.time()` timestamp, and the parsed latitude/longitude. -/
theorem claimC5 (pid : String) (last : Int) (inp : TickInput)
    (last2 : Int) (acts : List Action)
    (h : gnss_tick pid last inp = TickResult.next last2 acts) :
    countPush acts = (if steadyQualifying inp then 1 else 0) ∧
    (∀ g, Action.sinkPush g ∈ acts →
      ∃ line fix, inp.uartLine = some line ∧ parse_gpgga line = some fix ∧
        g = ⟨pid, inp.epoch, fix.lat, fix.lon⟩) := by
  obtain ⟨-, -, hc, hm⟩ := gnss_tick_next_spec pid last inp last2 acts h
  refine ⟨by rw [hc]; exact serialStep_countSpec pid last inp, ?_⟩
  intro g hg
  exact serialStep_pushMem pid last inp g (hm g hg)

/-- C5 witness: the theorem evaluated on an iteration carrying the
quality-4 example sentence with the throttle window closed: the sink
still receives exactly one record. -/
theorem claimC5_w :
    countPush [Action.sinkPush ⟨"p", 7, 481173/10000, 691/60⟩]
      = (if steadyQualifying qualTick then 1 else 0) :=
  (claimC5 "p" 0 qualTick 0 [Action.sinkPush ⟨"p", 7, 481173/10000, 691/60⟩]
    (by
      have h : gnss_tick "p" 0 qualTick
          = TickResult.next 0 (pushActs "p" 7 exGGA4) := rfl
      rw [h, pushActs, parse_exGGA4]
      rfl)).1

/-- C2: the claim states the relay loop checks an external stop signal
once per tick and exits when it is set.  The source loop is
`while True:` (line 119) and its body never reads any stop flag (the
`state` import at line 13 is unused in this task), so the loop's result
is independent of the stop signal and its only exits are the two hard
failures.  Amended statement proved here: an iteration's outcome is
unchanged by flipping the stop signal, and a halting iteration implies a
socket error or a zero-byte read — never a stop request. -/
theorem claimC2 :
    (∀ (pid : String) (last : Int) (inp : TickInput) (b : Bool),
      gnss_tick pid last { inp with stop := b } = gnss_tick pid last inp) ∧
    (∀ (pid : String) (last : Int) (inp : TickInput)
      (r : TermReason) (acts : List Action),
      gnss_tick pid last inp = TickResult.halt r acts →
      inp.sockEvent = some SockRead.err ∨
        inp.sockEvent = some (SockRead.data "")) := by
  constructor
  · intro pid last inp b
    cases inp
    rfl
  · intro pid last inp r acts h
    cases hse : inp.sockEvent with
    | none => simp [gnss_tick, hse] at h
    | some sr =>
      cases sr with
      | err => exact Or.inl rfl
      | data p =>
        simp only [gnss_tick, hse] at h
        by_cases hp : p = ""
        · subst hp
          exact Or.inr rfl
        · rw [if_neg hp] at h
          simp at h

/-- C2 counterexample: with the stop signal set and nothing else
happening, the relay loop does not exit — it finishes the iteration
still running (`term = none`), contradicting the claimed stop-signal
exit. -/
theorem claimC2_cex :
    stopTick.stop = true ∧ gnss_run "p" 0 [stopTick] = ⟨none, [], 0⟩ := by
  decide

/-- C2 witness: the amended theorem evaluated on the socket-error
iteration input. -/
theorem claimC2_w :
    gnss_tick "p" 0 { errTick with stop := true } = gnss_tick "p" 0 errTick ∧
    (errTick.sockEvent = some SockRead.err ∨
      errTick.sockEvent = some (SockRead.data "")) :=
  ⟨claimC2.1 "p" 0 errTick true,
   claimC2.2 "p" 0 errTick TermReason.socketError [] (by decide)⟩

/-- C8: a readable poll event whose read returns zero bytes makes the
iteration halt with `PeerClosed` having performed no action, and the
whole run terminates there: the remaining inputs are never processed, so
no further network or serial operation occurs in the session. -/
theorem claimC8 (pid : String) (last : Int) (inp : TickInput)
    (rest : List TickInput) (h : inp.sockEvent = some (SockRead.data "")) :
    gnss_tick pid last inp = TickResult.halt TermReason.peerClosed [] ∧
    gnss_run pid last (inp :: rest) = ⟨some TermReason.peerClosed, [], last⟩ := by
  have ht : gnss_tick pid last inp = TickResult.halt TermReason.peerClosed [] := by
    simp [gnss_tick, h]
  exact ⟨ht, by simp only [gnss_run, ht]⟩

/-- C8 witness: the theorem evaluated on the zero-byte-read input with a
nonempty remainder of the trace. -/
theorem claimC8_w :
    gnss_tick "p" 0 peerTick = TickResult.halt TermReason.peerClosed [] ∧
    gnss_run "p" 0 [peerTick] = ⟨some TermReason.peerClosed, [], 0⟩ :=
  claimC8 "p" 0 peerTick [] (by decide)

/-- C9: failure asymmetry of the relay loop.  A raised `sock.send` of a
throttled report is logged (`sendFail`) and the iteration continues —
the loop does not terminate, no report is sent, and the throttle clock
is left unchanged (so that report is never retried as such).  A raised
`sock.recv` terminates the loop with `SocketError`. -/
theorem claimC9 :
    (∀ (pid : String) (last : Int) (inp : TickInput),
      inp.sockEvent = some SockRead.err →
      gnss_tick pid last inp = TickResult.halt TermReason.socketError []) ∧
    (∀ (pid : String) (last : Int) (inp : TickInput) (line : String),
      inp.sockEvent = none → inp.uartLine = some line →
      pyStartsWith line "$GPGGA" = true → 1000 < inp.now - last →
      inp.sendOk = false →
      gnss_tick pid last inp
        = TickResult.next last
            (Action.sendFail line :: pushActs pid inp.epoch line)) := by
  constructor
  · intro pid last inp h
    simp [gnss_tick, h]
  · intro pid last inp line hse hul hsw hthr hok
    simp only [gnss_tick, hse]
    have hs : serialStep pid last inp
        = (last, Action.sendFail line :: pushActs pid inp.epoch line) := by
      simp only [serialStep, hul]
      rw [if_pos hsw, if_pos hthr, if_neg (by simp [hok])]
    rw [hs]

/-- C9 witness: the theorem evaluated on a socket-error input and on a
failed-send input carrying the example sentence. -/
theorem claimC9_w :
    gnss_tick "p" 0 errTick9 = TickResult.halt TermReason.socketError [] ∧
    gnss_tick "p" 0 sendFailTick
      = TickResult.next 0 (Action.sendFail exGGA4 :: pushActs "p" 5 exGGA4) :=
  ⟨claimC9.1 "p" 0 errTick9 (by decide),
   claimC9.2 "p" 0 sendFailTick exGGA4 (by decide) (by decide) (by decide)
     (by decide) (by decide)⟩

end BynavGNSS
